import Mathlib

/-!
Verification of the waiwine real-time translation client and relay.

The definitions below are a shallow embedding of the translation components
of the repository: the client overlay component
(`frontend/src/components/Translation/TranslationOverlay.vue`), the
translation settings page (`TranslationSettings` component), and — for the
parts of the relay whose code is not part of the repository snapshot — the
Session Registry and Fan-Out Orchestrator as the specification describes
them.  Volumes and speeds are modelled as rationals, base64 payloads as
strings decoded by an explicit decoder mirroring `atob`.
-/

/-- The reactive `translationSettings` object of `TranslationOverlay.vue`
(lines 211–221) and the `settings` object of the `TranslationSettings`
component: field names and shapes taken from the source. -/
structure TranslationSettings where
  textTranslationEnabled : Bool
  voiceTranslationEnabled : Bool
  originalVoiceVolume : ℚ
  translatedVoiceVolume : ℚ
  preferredVoiceId : String
  voiceSpeed : ℚ
  subtitlePosition : String
  subtitleFontSize : ℚ
  subtitleBackgroundOpacity : ℚ
  deriving DecidableEq, Repr

/-- The initial values of the reactive settings object
(`TranslationOverlay.vue` lines 211–221, identical in the settings page):
text on, voice off, original volume 0.3, translated volume 0.8, speed 1.0,
position bottom, font size 16, background opacity 0.7. -/
def defaultTranslationSettings : TranslationSettings where
  textTranslationEnabled := true
  voiceTranslationEnabled := false
  originalVoiceVolume := 3 / 10
  translatedVoiceVolume := 4 / 5
  preferredVoiceId := ""
  voiceSpeed := 1
  subtitlePosition := "bottom"
  subtitleFontSize := 16
  subtitleBackgroundOpacity := 7 / 10

/-- A JSON settings object returned by `GET /api/translation/settings`:
any subset of the fields may be present (absent fields are `none`). -/
structure StoredSettings where
  textTranslationEnabled : Option Bool := none
  voiceTranslationEnabled : Option Bool := none
  originalVoiceVolume : Option ℚ := none
  translatedVoiceVolume : Option ℚ := none
  preferredVoiceId : Option String := none
  voiceSpeed : Option ℚ := none
  subtitlePosition : Option String := none
  subtitleFontSize : Option ℚ := none
  subtitleBackgroundOpacity : Option ℚ := none
  deriving DecidableEq, Repr

/-- `Object.assign(settings, data)`: every field present in `data`
overwrites the corresponding field of `settings`, verbatim and with no
bounds checking; absent fields are left alone. -/
def objectAssign (s : TranslationSettings) (d : StoredSettings) : TranslationSettings where
  textTranslationEnabled := d.textTranslationEnabled.getD s.textTranslationEnabled
  voiceTranslationEnabled := d.voiceTranslationEnabled.getD s.voiceTranslationEnabled
  originalVoiceVolume := d.originalVoiceVolume.getD s.originalVoiceVolume
  translatedVoiceVolume := d.translatedVoiceVolume.getD s.translatedVoiceVolume
  preferredVoiceId := d.preferredVoiceId.getD s.preferredVoiceId
  voiceSpeed := d.voiceSpeed.getD s.voiceSpeed
  subtitlePosition := d.subtitlePosition.getD s.subtitlePosition
  subtitleFontSize := d.subtitleFontSize.getD s.subtitleFontSize
  subtitleBackgroundOpacity := d.subtitleBackgroundOpacity.getD s.subtitleBackgroundOpacity

/-- Outcome of a `fetch` of the settings endpoint: a 2xx response carrying
a body, a non-ok response, or a thrown network error. -/
inductive FetchResult (α : Type) where
  | ok (data : α)
  | notOk
  | networkError
  deriving DecidableEq, Repr

/-- `loadTranslationSettings` of `TranslationOverlay.vue` (lines 248–263):
on a 2xx response the body is merged into the current settings with
`Object.assign`; a non-ok response is ignored; a thrown error is caught
and logged, leaving the settings unchanged.  The function never throws. -/
def loadTranslationSettings (s : TranslationSettings) :
    FetchResult StoredSettings → TranslationSettings
  | .ok data => objectAssign s data
  | .notOk => s
  | .networkError => s

namespace SettingsPage

/-- `loadSettings` of the `TranslationSettings` component (lines 267–283):
identical merge logic — `Object.assign(settings, data)` on a 2xx response,
errors caught and logged. -/
def loadSettings (s : TranslationSettings) :
    FetchResult StoredSettings → TranslationSettings
  | .ok data => objectAssign s data
  | .notOk => s
  | .networkError => s

end SettingsPage

/-- `initializeTranslation` of `TranslationOverlay.vue` (lines 230–246):
loads settings (which cannot throw), then initializes the WebSocket; only
a WebSocket failure aborts initialization (`translation-error`), any
settings-store outcome lets the session start (`translation-ready`).
Returns the settings in force when the session started, or `none` if
initialization failed. -/
def initializeTranslation (resp : FetchResult StoredSettings) (wsOk : Bool) :
    Option TranslationSettings :=
  if wsOk then some (loadTranslationSettings defaultTranslationSettings resp) else none

/-- A `text_translation` payload turned into the object stored in
`currentTranslation` by `displayTranslation` (lines 335–342): speaker id,
original and translated text, source and target language. -/
structure Caption where
  speakerId : String
  originalText : String
  translatedText : String
  sourceLanguage : String
  targetLanguage : String
  deriving DecidableEq, Repr

/-- An entry of the `voices_list` payload / `availableVoices`. -/
structure Voice where
  id : String
  name : String
  gender : String
  deriving DecidableEq, Repr

/-- The WebSocket messages dispatched by `handleWebSocketMessage`
(lines 315–333): `text_translation`, `voice_translation` (speaker id,
target language, base64 `audio_data`), `voices_list`, `settings_updated`
and `error`. -/
inductive WsMessage where
  | textTranslation (cap : Caption)
  | voiceTranslation (speakerId targetLanguage audioData : String)
  | voicesList (voices : List Voice)
  | settingsUpdated
  | errorMessage (message : String)
  deriving DecidableEq, Repr

/-- Characters removed by the forgiving-base64 step of `atob`. -/
def isBase64Whitespace (c : Char) : Bool :=
  c == ' ' || c == '\t' || c == '\n' || c == '\r' || c == '\x0c'

/-- Value of a base64 alphabet character, `none` for anything else. -/
def b64Index (c : Char) : Option ℕ :=
  if 'A' ≤ c ∧ c ≤ 'Z' then some (c.toNat - 65)
  else if 'a' ≤ c ∧ c ≤ 'z' then some (c.toNat - 97 + 26)
  else if '0' ≤ c ∧ c ≤ '9' then some (c.toNat - 48 + 52)
  else if c = '+' then some 62
  else if c = '/' then some 63
  else none

/-- Reassemble 6-bit groups into bytes: every complete group of four
characters yields three bytes, a trailing group of two or three yields one
or two bytes, a trailing single character is invalid. -/
def b64Bytes : List ℕ → Option (List ℕ)
  | a :: b :: c :: d :: e :: rest =>
    (b64Bytes (e :: rest)).map fun tail =>
      (a * 4 + b / 16) :: ((b % 16) * 16 + c / 4) :: ((c % 4) * 64 + d) :: tail
  | [a, b, c, d] => some [a * 4 + b / 16, (b % 16) * 16 + c / 4, (c % 4) * 64 + d]
  | [a, b, c] => some [a * 4 + b / 16, (b % 16) * 16 + c / 4]
  | [a, b] => some [a * 4 + b / 16]
  | [] => some []
  | [_] => none

/-- The browser `atob` (forgiving-base64 decode) as the client uses it:
strip ASCII whitespace, strip up to two trailing `=` when the length is a
multiple of four, reject a leftover length of 1 mod 4 or any stray `=`,
map each character through the base64 alphabet and reassemble the bytes;
`none` models the `InvalidCharacterError` that the caller catches. -/
def atobDecode (s : String) : Option (List ℕ) :=
  let trimmed := s.toList.filter fun c => !isBase64Whitespace c
  let unpadded :=
    if trimmed.length % 4 == 0 ∧ trimmed.getLast? = some '=' then
      if trimmed.dropLast.getLast? = some '=' then trimmed.dropLast.dropLast
      else trimmed.dropLast
    else trimmed
  if unpadded.length % 4 == 1 ∨ unpadded.any (· == '=') then none
  else do
    let idxs ← unpadded.mapM b64Index
    b64Bytes idxs

/-- The client-side observable state of the overlay component: its
settings, the single `currentTranslation` ref, the voices list, whether an
`AudioContext` exists, the log of (decoded bytes, gain) pairs handed to the
Web Audio graph by `playTranslatedAudio`, and the playback gain applied to
remote speakers' live audio tracks.  The room view renders remote
`AudioTrack`s without ever setting a volume on them, so `liveOriginalGain`
starts at 1 and only code that actually changes a track's volume would
move it. -/
structure ClientState where
  translationSettings : TranslationSettings
  currentTranslation : Option Caption
  availableVoices : List Voice
  audioContext : Bool
  playedAudio : List (List ℕ × ℚ)
  liveOriginalGain : ℚ
  deriving DecidableEq, Repr

/-- `displayTranslation` (lines 335–342): unconditionally overwrite the
single `currentTranslation` ref with the new caption.  (The 5-second
auto-clear timer it schedules is modelled by the timeline semantics
`captionAt` below.) -/
def displayTranslation (st : ClientState) (cap : Caption) : ClientState :=
  { st with currentTranslation := some cap }

/-- `playTranslatedAudio` (lines 353–383): return immediately if voice
translation is disabled or no audio context exists; otherwise decode the
base64 payload with `atob` (a decode error is caught and nothing plays)
and start playback through a gain node whose gain is
`translationSettings.translatedVoiceVolume`.  The live speaker gain is
not touched. -/
def playTranslatedAudio (st : ClientState) (audioData : String) : ClientState :=
  if !st.translationSettings.voiceTranslationEnabled || !st.audioContext then st
  else
    match atobDecode audioData with
    | none => st
    | some bytes =>
      { st with playedAudio :=
          st.playedAudio ++ [(bytes, st.translationSettings.translatedVoiceVolume)] }

/-- `handleWebSocketMessage` (lines 315–333): dispatch on the message
type; `settings_updated` and `error` only log. -/
def handleWebSocketMessage (st : ClientState) : WsMessage → ClientState
  | .textTranslation cap => displayTranslation st cap
  | .voiceTranslation _ _ audioData => playTranslatedAudio st audioData
  | .voicesList voices => { st with availableVoices := voices }
  | .settingsUpdated => st
  | .errorMessage _ => st

/-- The caption actually rendered: the subtitle container (template lines
4–8) exists only when `translationSettings.textTranslationEnabled` holds
and `currentTranslation` is non-null. -/
def shownCaption (st : ClientState) : Option Caption :=
  if st.translationSettings.textTranslationEnabled then st.currentTranslation else none

/-- One thing the event loop can run for the caption display: the receive
branch of `displayTranslation` (set the caption), or the firing of the
5-second timer an earlier `displayTranslation` scheduled, which carries the
`original_text` of the envelope that scheduled it. -/
inductive Happening where
  | recv (cap : Caption)
  | fire (originalText : String)
  deriving DecidableEq, Repr

/-- Effect of one happening on the `currentTranslation` ref: a receive
overwrites it; a timer firing clears it only when the caption currently
displayed has the same `original_text` as the envelope that scheduled the
timer (`displayTranslation` lines 344–350). -/
def stepHappening (st : Option Caption) : Happening → Option Caption
  | .recv cap => some cap
  | .fire s =>
    match st with
    | some cap => if cap.originalText = s then none else some cap
    | none => none

/-- Insert a timestamped happening after every already-listed happening
with an earlier or equal timestamp (stable insertion). -/
def insertByTime (x : ℕ × Happening) : List (ℕ × Happening) → List (ℕ × Happening)
  | [] => [x]
  | y :: ys => if y.1 < x.1 then y :: insertByTime x ys else x :: y :: ys

/-- Stable sort of happenings by timestamp. -/
def sortByTime : List (ℕ × Happening) → List (ℕ × Happening)
  | [] => []
  | x :: xs => insertByTime x (sortByTime xs)

/-- The happenings generated by a list of timestamped `text_translation`
receipts: each receipt at time `t` runs `displayTranslation` at `t` and
schedules its auto-clear timer at `t + 5` (5000 ms, line 350). -/
def happenings (events : List (ℕ × Caption)) : List (ℕ × Happening) :=
  events.foldr
    (fun e acc => (e.1, Happening.recv e.2) :: (e.1 + 5, Happening.fire e.2.originalText) :: acc)
    []

/-- The caption held in `currentTranslation` at time `t` (in seconds),
after running every receive and timer happening with timestamp `≤ t` in
chronological order, starting from no caption. -/
def captionAt (events : List (ℕ × Caption)) (t : ℕ) : Option Caption :=
  ((sortByTime (happenings events)).filter (fun h => h.1 ≤ t)).foldl
    (fun st h => stepHappening st h.2) none

/-- The value an `input type=range` control reports: the browser clamps it
to the control's `min`/`max` attributes. -/
def rangeInputValue (lo hi v : ℚ) : ℚ := max lo (min hi v)

/-- The slider for the original voice volume (`min=0 max=1`). -/
def setOriginalVolume (s : TranslationSettings) (v : ℚ) : TranslationSettings :=
  { s with originalVoiceVolume := rangeInputValue 0 1 v }

/-- The slider for the translated voice volume (`min=0 max=1`). -/
def setTranslatedVolume (s : TranslationSettings) (v : ℚ) : TranslationSettings :=
  { s with translatedVoiceVolume := rangeInputValue 0 1 v }

/-- The slider for the voice speed (`min=0.5 max=2.0`). -/
def setVoiceSpeed (s : TranslationSettings) (v : ℚ) : TranslationSettings :=
  { s with voiceSpeed := rangeInputValue (1 / 2) 2 v }

/-- The options offered by the subtitle position `select` element. -/
def positionOptions : List String := ["top", "bottom", "overlay"]

/-- The subtitle position `select` element: it can only report one of its
option values. -/
def setSubtitlePosition (s : TranslationSettings) (p : String) : TranslationSettings :=
  { s with subtitlePosition := p }

/-- The documented bounds of §3 of the specification: volumes in `[0,1]`,
voice speed in `[0.5,2.0]`, subtitle position among top/bottom/overlay. -/
abbrev settingsInBounds (s : TranslationSettings) : Prop :=
  0 ≤ s.originalVoiceVolume ∧ s.originalVoiceVolume ≤ 1 ∧
  0 ≤ s.translatedVoiceVolume ∧ s.translatedVoiceVolume ≤ 1 ∧
  1 / 2 ≤ s.voiceSpeed ∧ s.voiceSpeed ≤ 2 ∧
  s.subtitlePosition ∈ positionOptions

/-- Modelled from the spec: one entry of the Session Registry `Snapshot`
(§4.1) — the relay server is not part of the repository snapshot, so the
snapshot view (participant id, target language, settings) follows §4.1
of the specification. -/
structure ParticipantView where
  participantId : String
  targetLanguage : String
  settings : TranslationSettings
  deriving DecidableEq, Repr

/-- Modelled from the spec: an Utterance (§3) — speaker id, source
language, transcript and arrival timestamp; the recognizing relay is not
in the repository snapshot. -/
structure Utterance where
  speakerId : String
  sourceLanguage : String
  transcript : String
  arrival : ℕ
  deriving DecidableEq, Repr

/-- One invocation of the Translation Provider (§6):
`Translate(text, sourceLanguage, targetLanguage)`. -/
structure TranslateCall where
  text : String
  sourceLanguage : String
  targetLanguage : String
  deriving DecidableEq, Repr

/-- Modelled from the spec: steps 2–3 of the Fan-Out Orchestrator (§4.3) —
exclude the speaker's own channel, keep listeners with
`textEnabled || voiceEnabled`. -/
def eligibleListeners (snapshot : List ParticipantView) (speakerId : String) :
    List ParticipantView :=
  snapshot.filter fun l =>
    l.participantId ≠ speakerId ∧
      (l.settings.textTranslationEnabled || l.settings.voiceTranslationEnabled)

/-- Modelled from the spec: step 3 of §4.3 — the set of distinct target
languages among the eligible listeners, materialized as an explicit dedup
key list (§9). -/
def listenerTargetLanguages (snapshot : List ParticipantView) (speakerId : String) :
    List String :=
  ((eligibleListeners snapshot speakerId).map (·.targetLanguage)).dedup

/-- Modelled from the spec: step 4 of §4.3 — for each distinct target
language, invoke the Translation Provider exactly once with
(transcript, sourceLanguage, targetLanguage); the result is cached in a
per-utterance local and the calls below are all the provider traffic this
utterance generates. -/
def translationCalls (snapshot : List ParticipantView) (u : Utterance) :
    List TranslateCall :=
  (listenerTargetLanguages snapshot u.speakerId).map fun lang =>
    { text := u.transcript, sourceLanguage := u.sourceLanguage, targetLanguage := lang }

/-- Modelled from the spec: processing a sequence of utterances against a
fixed snapshot — each utterance runs the whole of §4.3 afresh, with no
translation cache surviving from one utterance to the next (§4.3 step 4:
"no cross-utterance cache"). -/
def translationCallsOfUtterances (snapshot : List ParticipantView)
    (us : List Utterance) : List TranslateCall :=
  us.foldr (fun u acc => translationCalls snapshot u ++ acc) []

/-- Result of the Session Registry `UpdateSettings` operation (§4.1). -/
inductive UpdateResult where
  | ok
  | rejected (field : String)
  deriving DecidableEq, Repr

/-- Modelled from the spec: the bounds validation of `UpdateSettings`
(§4.1, §3) — report the first field outside its documented range (§3 gives
numeric ranges for the volumes, the voice speed and the subtitle
position). -/
def validateSettings (s : TranslationSettings) : UpdateResult :=
  if ¬ (0 ≤ s.originalVoiceVolume ∧ s.originalVoiceVolume ≤ 1) then
    .rejected "originalVolume"
  else if ¬ (0 ≤ s.translatedVoiceVolume ∧ s.translatedVoiceVolume ≤ 1) then
    .rejected "translatedVolume"
  else if ¬ (1 / 2 ≤ s.voiceSpeed ∧ s.voiceSpeed ≤ 2) then
    .rejected "voiceSpeed"
  else if s.subtitlePosition ∉ positionOptions then
    .rejected "subtitlePosition"
  else .ok

/-- Modelled from the spec: `UpdateSettings(room, participant, new)`
(§4.1) — validate bounds; on success atomically swap the settings snapshot,
on failure keep the prior valid settings in force and return the invalid
field; the relay server holding this registry is not in the repository
snapshot. -/
def updateSettingsRegistry (current proposed : TranslationSettings) :
    TranslationSettings × UpdateResult :=
  match validateSettings proposed with
  | .ok => (proposed, .ok)
  | .rejected f => (current, .rejected f)

/-- Example caption from speaker alice. -/
def exCapA : Caption where
  speakerId := "alice"
  originalText := "hello"
  translatedText := "hola"
  sourceLanguage := "en"
  targetLanguage := "es"

/-- Example caption from a second concurrent speaker bob, carrying the
same original text as `exCapA`. -/
def exCapB : Caption where
  speakerId := "bob"
  originalText := "hello"
  translatedText := "salut"
  sourceLanguage := "en"
  targetLanguage := "fr"

/-- Example caption from bob with a different original text. -/
def exCapC : Caption where
  speakerId := "bob"
  originalText := "bye"
  translatedText := "au revoir"
  sourceLanguage := "en"
  targetLanguage := "fr"

/-- A client state with voice translation enabled, an audio context, and
the default volumes (original 0.3, translated 0.8). -/
def exVoiceOnState : ClientState where
  translationSettings := { defaultTranslationSettings with voiceTranslationEnabled := true }
  currentTranslation := none
  availableVoices := []
  audioContext := true
  playedAudio := []
  liveOriginalGain := 1

/-- A client state with text translation disabled. -/
def exTextOffState : ClientState where
  translationSettings := { defaultTranslationSettings with textTranslationEnabled := false }
  currentTranslation := none
  availableVoices := []
  audioContext := true
  playedAudio := []
  liveOriginalGain := 1

/-- A client state with voice translation disabled (the default). -/
def exVoiceOffState : ClientState where
  translationSettings := defaultTranslationSettings
  currentTranslation := none
  availableVoices := []
  audioContext := true
  playedAudio := []
  liveOriginalGain := 1

/-- A proposed settings update whose original volume is out of range. -/
def exBadProposed : TranslationSettings :=
  { defaultTranslationSettings with originalVoiceVolume := 3 / 2 }

theorem handleWebSocketMessage_settings (st : ClientState) (m : WsMessage) :
    (handleWebSocketMessage st m).translationSettings = st.translationSettings := by
  cases m with
  | textTranslation cap => rfl
  | voiceTranslation spk lang audioData =>
    simp only [handleWebSocketMessage, playTranslatedAudio]
    split
    · rfl
    · split <;> rfl
  | voicesList voices => rfl
  | settingsUpdated => rfl
  | errorMessage msg => rfl

/-- C5: if the settings store cannot be reached (a thrown fetch error or a
non-ok response) when the translation session initializes, initialization
still completes — the join is not blocked — and the settings in force are
the reactive defaults: text translation enabled, voice translation
disabled. -/
theorem settingsUnavailable_safe_defaults :
    initializeTranslation .networkError true = some defaultTranslationSettings ∧
    initializeTranslation .notOk true = some defaultTranslationSettings ∧
    defaultTranslationSettings.textTranslationEnabled = true ∧
    defaultTranslationSettings.voiceTranslationEnabled = false :=
  ⟨rfl, rfl, rfl, rfl⟩

/-- C9: a handled `text_translation` message unconditionally overwrites
the single `currentTranslation` ref with the new caption, whatever caption
(from whatever speaker) was displayed before — last-wins, so the earlier
caption can be dropped before its 5-second timeout. -/
theorem textTranslation_replaces_current (st : ClientState) (cap : Caption) :
    (handleWebSocketMessage st (.textTranslation cap)).currentTranslation = some cap := rfl

/-- C10: a `voice_translation` message handled while voice translation is
disabled, or while no audio context exists, changes nothing: no decode, no
playback, the whole client state is untouched. -/
theorem voiceDisabled_audio_ignored (st : ClientState) (spk lang payload : String)
    (h : st.translationSettings.voiceTranslationEnabled = false ∨ st.audioContext = false) :
    handleWebSocketMessage st (.voiceTranslation spk lang payload) = st := by
  simp only [handleWebSocketMessage, playTranslatedAudio]
  rcases h with h | h <;> simp [h]

/-- Witness for C10 at a concrete state and message. -/
theorem voiceDisabled_audio_ignored_witness :
    handleWebSocketMessage exVoiceOffState (.voiceTranslation "alice" "en" "aGk=") =
      exVoiceOffState :=
  voiceDisabled_audio_ignored exVoiceOffState "alice" "en" "aGk=" (Or.inl rfl)

/-- C8: a `voice_translation` message handled while voice translation is
enabled and an audio context exists decodes its base64 `audio_data` with
`atob` and plays the decoded bytes at a gain equal to the listener's
`translatedVoiceVolume`; nothing else in the state changes. -/
theorem voiceEnabled_plays_at_translatedVolume (st : ClientState)
    (spk lang payload : String) (bytes : List ℕ)
    (hv : st.translationSettings.voiceTranslationEnabled = true)
    (hc : st.audioContext = true)
    (hd : atobDecode payload = some bytes) :
    handleWebSocketMessage st (.voiceTranslation spk lang payload) =
      { st with playedAudio :=
          st.playedAudio ++ [(bytes, st.translationSettings.translatedVoiceVolume)] } := by
  simp [handleWebSocketMessage, playTranslatedAudio, hv, hc, hd]

/-- Witness for C8: the payload "aGk=" decodes to the bytes of "hi" and is
played at the default translated volume 0.8. -/
theorem voiceEnabled_plays_at_translatedVolume_witness :
    handleWebSocketMessage exVoiceOnState (.voiceTranslation "alice" "en" "aGk=") =
      { exVoiceOnState with playedAudio :=
          exVoiceOnState.playedAudio ++
            [([104, 105], exVoiceOnState.translationSettings.translatedVoiceVolume)] } :=
  voiceEnabled_plays_at_translatedVolume exVoiceOnState "alice" "en" "aGk=" [104, 105]
    rfl rfl (by decide)

/-- C6: a listener whose text translation is disabled is never shown a
caption — whatever sequence of WebSocket messages the client handles, the
subtitle container stays hidden, while another listener of the same room
with text enabled renders the caption for the same envelope (their states
are independent per client). -/
theorem textDisabled_never_shows_caption (st : ClientState) (msgs : List WsMessage)
    (h : st.translationSettings.textTranslationEnabled = false) :
    shownCaption (msgs.foldl handleWebSocketMessage st) = none := by
  induction msgs generalizing st with
  | nil => simp [shownCaption, h]
  | cons m ms ih =>
    simp only [List.foldl_cons]
    exact ih _ (by rw [handleWebSocketMessage_settings, h])

/-- Witness for C6: a caption envelope arrives and the overlay still shows
nothing. -/
theorem textDisabled_never_shows_caption_witness :
    shownCaption ([WsMessage.textTranslation exCapA].foldl handleWebSocketMessage
      exTextOffState) = none :=
  textDisabled_never_shows_caption exTextOffState [WsMessage.textTranslation exCapA] rfl

theorem validateSettings_ok_iff (s : TranslationSettings) :
    validateSettings s = UpdateResult.ok ↔ settingsInBounds s := by
  unfold validateSettings
  split_ifs with h1 h2 h3 h4 <;> simp_all [settingsInBounds]

/-- C2: a proposed settings update with any field outside its documented
bounds is rejected in full by the registry: the settings in force after
the update are exactly the prior valid settings — every field, including
the offending one, unchanged, no partial merge — and the caller is told
which field was rejected. -/
theorem updateSettings_rejected_keeps_prior (current proposed : TranslationSettings)
    (h : ¬ settingsInBounds proposed) :
    (updateSettingsRegistry current proposed).1 = current ∧
    ∃ f, (updateSettingsRegistry current proposed).2 = UpdateResult.rejected f := by
  have hne : validateSettings proposed ≠ UpdateResult.ok := fun hok =>
    h ((validateSettings_ok_iff proposed).mp hok)
  rcases hv : validateSettings proposed with _ | f
  · exact absurd hv hne
  · exact ⟨by simp [updateSettingsRegistry, hv], f, by simp [updateSettingsRegistry, hv]⟩

/-- Witness for C2: submitting originalVolume = 1.5 leaves the prior
settings in force. -/
theorem updateSettings_rejected_keeps_prior_witness :
    (updateSettingsRegistry defaultTranslationSettings exBadProposed).1 =
      defaultTranslationSettings ∧
    ∃ f, (updateSettingsRegistry defaultTranslationSettings exBadProposed).2 =
      UpdateResult.rejected f :=
  updateSettings_rejected_keeps_prior defaultTranslationSettings exBadProposed
    (by norm_num [exBadProposed, defaultTranslationSettings, settingsInBounds, positionOptions])

/-- C1: per recognized utterance, the Translation Provider is invoked
exactly once per distinct target language of the eligible listeners
(speaker excluded, text or voice enabled), however many listeners share
that language; and over a sequence of utterances every utterance generates
its own calls afresh — the per-utterance cache does not survive to the
next utterance, so the total call count per language is the sum over
utterances, not one. -/
theorem translationProvider_once_per_distinct_language :
    (∀ (snapshot : List ParticipantView) (u : Utterance) (lang : String),
      ((translationCalls snapshot u).map TranslateCall.targetLanguage).count lang =
        if lang ∈ (eligibleListeners snapshot u.speakerId).map
            (fun l => l.targetLanguage) then 1 else 0) ∧
    (∀ (snapshot : List ParticipantView) (us : List Utterance) (lang : String),
      ((translationCallsOfUtterances snapshot us).map TranslateCall.targetLanguage).count lang
        = (us.map fun u =>
            if lang ∈ (eligibleListeners snapshot u.speakerId).map
                (fun l => l.targetLanguage) then 1 else 0).sum) := by
  have key : ∀ (snapshot : List ParticipantView) (u : Utterance) (lang : String),
      ((translationCalls snapshot u).map TranslateCall.targetLanguage).count lang =
        if lang ∈ (eligibleListeners snapshot u.speakerId).map
            (fun l => l.targetLanguage) then 1 else 0 := by
    intro snapshot u lang
    have hmap : (translationCalls snapshot u).map TranslateCall.targetLanguage =
        listenerTargetLanguages snapshot u.speakerId := by
      simp [translationCalls, List.map_map, Function.comp_def]
    rw [hmap, listenerTargetLanguages, List.count_dedup]
  refine ⟨key, ?_⟩
  intro snapshot us lang
  induction us with
  | nil => rfl
  | cons u us ih =>
    have hsplit : translationCallsOfUtterances snapshot (u :: us) =
        translationCalls snapshot u ++ translationCallsOfUtterances snapshot us := rfl
    rw [hsplit, List.map_append, List.count_append, key, ih]
    simp

/-- C3: no code path of the client ever attenuates the live audio of a
speaking participant — not while a synthesized clip plays and not while
voice translation is enabled.  First conjunct: every handled WebSocket
message leaves the live-track gain exactly as it was.  The remaining
conjuncts evaluate the failing input: with voice translation enabled and
originalVoiceVolume = 0.3, a voice_translation envelope is played (the
translated clip does sound) yet the live gain stays 1, not 0.3, so the
setting the spec ties the attenuation to is never applied. -/
theorem voice_translation_never_attenuates_original :
    (∀ (st : ClientState) (m : WsMessage),
      (handleWebSocketMessage st m).liveOriginalGain = st.liveOriginalGain) ∧
    (handleWebSocketMessage exVoiceOnState
        (.voiceTranslation "alice" "en" "aGk=")).liveOriginalGain = 1 ∧
    (handleWebSocketMessage exVoiceOnState
        (.voiceTranslation "alice" "en" "aGk=")).playedAudio = [([104, 105], 4 / 5)] ∧
    exVoiceOnState.translationSettings.originalVoiceVolume = 3 / 10 ∧
    (1 : ℚ) ≠ 3 / 10 := by
  constructor
  · intro st m
    cases m with
    | textTranslation cap => rfl
    | voiceTranslation spk lang audioData =>
      simp only [handleWebSocketMessage, playTranslatedAudio]
      split
      · rfl
      · split <;> rfl
    | voicesList voices => rfl
    | settingsUpdated => rfl
    | errorMessage msg => rfl
  · exact ⟨rfl, rfl, rfl, by norm_num⟩

/-- C4 counterexample: caption B from concurrent speaker bob supersedes
caption A from alice at time 3 and carries the same original text; the
claim then requires B to stay displayed until time 8, but at time 7 the
display is already empty — A's 5-second timer fired at time 5 and, because
its guard compares only `original_text`, cleared the superseding caption
three seconds early. -/
theorem caption_timer_clears_superseding_same_text :
    captionAt [(0, exCapA), (3, exCapB)] 4 = some exCapB ∧
    captionAt [(0, exCapA), (3, exCapB)] 7 = none ∧
    exCapB.speakerId ≠ exCapA.speakerId ∧
    exCapB.originalText = exCapA.originalText := by decide

/-- C4 amended: a displayed caption is auto-cleared 5 seconds after its
envelope arrived, and an earlier envelope's timer never clears a
superseding caption whose original text differs from the earlier one —
with the same original text, the earlier timer may clear the superseding
caption early (see the counterexample). -/
theorem caption_autoclear_and_supersede :
    (∀ (c : Caption) (tA t : ℕ), tA + 5 ≤ t → captionAt [(tA, c)] t = none) ∧
    (∀ (cA cB : Caption) (tA tB t : ℕ),
      cA.originalText ≠ cB.originalText → tA < tB → tB ≤ t → t < tB + 5 →
      captionAt [(tA, cA), (tB, cB)] t = some cB) := by
  constructor
  · intro c tA t h
    have f1 : ¬ (tA + 5 < tA) := by omega
    have f2 : tA ≤ t := by omega
    simp [captionAt, happenings, sortByTime, insertByTime, stepHappening, List.filter_cons,
      f1, f2, h]
  · intro cA cB tA tB t hne hAB h1 h2
    have hba : cB.originalText ≠ cA.originalText := Ne.symm hne
    have f1 : ¬ (tB + 5 < tB) := by omega
    have f3 : ¬ (tA + 5 < tA) := by omega
    have f4 : tA ≤ t := by omega
    have f6 : ¬ (tB + 5 ≤ t) := by omega
    by_cases hL : tA + 5 ≤ tB
    · have g1 : ¬ (tB < tA + 5) := by omega
      have g2 : tA + 5 ≤ t := by omega
      simp [captionAt, happenings, sortByTime, insertByTime, stepHappening, List.filter_cons,
        f1, f3, f4, f6, g1, g2, h1, hba]
    · have g1 : tB < tA + 5 := by omega
      have g2 : ¬ (tB + 5 < tA + 5) := by omega
      have g3 : ¬ (tB < tA) := by omega
      by_cases hR : tA + 5 ≤ t
      · simp [captionAt, happenings, sortByTime, insertByTime, stepHappening, List.filter_cons,
          f1, f4, f6, g1, g2, g3, h1, hR, hba]
      · simp [captionAt, happenings, sortByTime, insertByTime, stepHappening, List.filter_cons,
          f1, f4, f6, g1, g2, g3, h1, hR, hba]

/-- Witness for C4 at concrete captions and times: a lone caption is gone
at time 9, and a different-text superseding caption is still shown at
time 4. -/
theorem caption_autoclear_and_supersede_witness :
    captionAt [(0, exCapA)] 9 = none ∧
    captionAt [(0, exCapA), (3, exCapC)] 4 = some exCapC :=
  ⟨caption_autoclear_and_supersede.1 exCapA 0 9 (by decide),
    caption_autoclear_and_supersede.2 exCapA exCapC 0 3 4 (by decide) (by decide)
      (by decide) (by decide)⟩

/-- C7 counterexample: the defaults are in bounds, yet loading stored
settings whose originalVolume is 1.5 copies the value verbatim
(`Object.assign` performs no clamping), leaving the accepted settings out
of the documented [0,1] range. -/
theorem loadSettings_accepts_out_of_range :
    settingsInBounds defaultTranslationSettings ∧
    (SettingsPage.loadSettings defaultTranslationSettings
        (.ok { originalVoiceVolume := some (3 / 2) })).originalVoiceVolume = 3 / 2 ∧
    ¬ settingsInBounds (SettingsPage.loadSettings defaultTranslationSettings
        (.ok { originalVoiceVolume := some (3 / 2) })) := by
  refine ⟨by norm_num [defaultTranslationSettings, settingsInBounds, positionOptions],
    rfl, ?_⟩
  intro hb
  have hle : (3 : ℚ) / 2 ≤ 1 := hb.2.1
  norm_num at hle

/-- C7 amended: a user edit through the settings controls keeps every
bounded field in range — the volume and speed range inputs clamp to their
min/max attributes and the position select offers only top, bottom and
overlay — but loading stored settings accepts the stored values verbatim
without clamping (see the counterexample). -/
theorem slider_edits_stay_in_bounds (s : TranslationSettings) (v w x : ℚ) (p : String)
    (hs : settingsInBounds s) (hp : p ∈ positionOptions) :
    settingsInBounds (setOriginalVolume s v) ∧
    settingsInBounds (setTranslatedVolume s w) ∧
    settingsInBounds (setVoiceSpeed s x) ∧
    settingsInBounds (setSubtitlePosition s p) := by
  obtain ⟨h1, h2, h3, h4, h5, h6, h7⟩ := hs
  exact ⟨⟨le_max_left _ _, max_le (by norm_num) (min_le_left _ _), h3, h4, h5, h6, h7⟩,
    ⟨h1, h2, le_max_left _ _, max_le (by norm_num) (min_le_left _ _), h5, h6, h7⟩,
    ⟨h1, h2, h3, h4, le_max_left _ _, max_le (by norm_num) (min_le_left _ _), h7⟩,
    ⟨h1, h2, h3, h4, h5, h6, hp⟩⟩

/-- Witness for C7: sliding every slider to 5 (clamped) and selecting the
top position keeps the default settings in bounds. -/
theorem slider_edits_stay_in_bounds_witness :
    settingsInBounds (setOriginalVolume defaultTranslationSettings 5) ∧
    settingsInBounds (setTranslatedVolume defaultTranslationSettings 5) ∧
    settingsInBounds (setVoiceSpeed defaultTranslationSettings 5) ∧
    settingsInBounds (setSubtitlePosition defaultTranslationSettings "top") :=
  slider_edits_stay_in_bounds defaultTranslationSettings 5 5 5 "top"
    (by norm_num [defaultTranslationSettings, settingsInBounds, positionOptions])
    (by simp [positionOptions])
